import Mathlib

/-!
Verification of the resource-resolution and action-dispatch logic of the
Ansible module `library/manageiq_vmdb.py` (repository ManageIQ/ansible-manageiq-vmdb).

The Python module is shallowly embedded: JSON values decoded from HTTP
responses become the inductive type `Json`; the HTTP client is abstracted as a
function from requests to `Except`-wrapped responses; Ansible module exit paths
(`exit_json`, `fail_json`, uncaught Python exceptions) become the `Outcome`
type; the two network-performing methods thread an explicit request log so that
claims about which requests are performed can be stated.
-/

/-- JSON values, as decoded from an HTTP response body. Python dicts are
association lists of string keys (decoded JSON has unique keys; lookup takes
the first match). -/
inductive Json where
  | null
  | bool (b : Bool)
  | num (n : Int)
  | str (s : String)
  | arr (elems : List Json)
  | obj (fields : List (String × Json))

/-- Python dict indexing `d[k]` on a decoded JSON object: `none` when the key
is absent (a `KeyError` in Python) or when the value is not a dict at all. -/
def Json.getField : Json → String → Option Json
  | .obj fields, k => fields.lookup k
  | _, _ => none

/-- Python truthiness of a decoded JSON value (`if result[...]:`):
`None`, `False`, `0`, the empty string, the empty list and the empty dict are
falsy, everything else is truthy. -/
def Json.truthy : Json → Bool
  | .null => false
  | .bool b => b
  | .num n => n != 0
  | .str s => s != ""
  | .arr elems => !elems.isEmpty
  | .obj fields => !fields.isEmpty

/-- Python truthiness of an optional string parameter: `None` and the empty
string are falsy. -/
def pyTruthy : Option String → Bool
  | none => false
  | some s => s != ""

/-- Membership of an optional string parameter in the Python tuple
`(None, '')`, the test used by the error loop of
`validate_connection_params`. -/
def inNoneOrEmpty : Option String → Bool
  | none => true
  | some s => s == ""

/-- The `manageiq_connection` sub-dictionary. Every key is present in
`module.params` (the argument spec defaults each to `None` or an environment
value), so each field is an optional string. -/
structure ConnectionParams where
  url : Option String
  username : Option String
  password : Option String
  token : Option String
deriving DecidableEq, Repr

/-- The error message template of `validate_connection_params`. -/
def missingArgMsg (arg : String) : String :=
  "missing required argument: manageiq_connection[" ++ arg ++ "]"

/-- Embedding of `validate_connection_params` (lines 49-61): accept when
`(url and username and password) or (url and token)` is truthy, otherwise walk
`[url, username, password]` in order and fail on the first value in
`(None, '')`. The final `.ok p` mirrors the implicit fall-through of the
Python function; it is unreachable, because when none of the three checked
fields is in `(None, '')` the accepting condition already held. -/
def validate_connection_params (p : ConnectionParams) : Except String ConnectionParams :=
  if (pyTruthy p.url && pyTruthy p.username && pyTruthy p.password)
      || (pyTruthy p.url && pyTruthy p.token) then
    .ok p
  else if inNoneOrEmpty p.url then .error (missingArgMsg "url")
  else if inNoneOrEmpty p.username then .error (missingArgMsg "username")
  else if inNoneOrEmpty p.password then .error (missingArgMsg "password")
  else .ok p

/-- The value of the `self._vmdb` instance variable: either the `vmdb`
module parameter (a dict) or the `href` module parameter (a string). -/
inductive VmdbRef where
  | obj (fields : List (String × Json))
  | str (s : String)

/-- The mutable state of a `ManageIQVmdb` object that `parse` writes and
`post_url` reads: `_api_url` (initialised by `ManageIQ.__init__` to
`url + '/api'`) and `_href` (initialised to `None`). -/
structure VmdbState where
  api_url : String
  href : Option String
deriving DecidableEq, Repr

/-- Embedding of the `post_url` property (lines 139-146): `_api_url + '/' +
_href` when `_href` is truthy (a Python `None` or empty string is falsy and
yields the bare `_api_url`). -/
def post_url (st : VmdbState) : String :=
  match st.href with
  | some h => if h = "" then st.api_url else st.api_url ++ "/" ++ h
  | none => st.api_url

/-- Characterwise split on the two-character separator `"::"`, cutting at
each leftmost non-overlapping occurrence, with `acc` the (reversed) characters
of the current piece. This is the semantics of the Python call
`item.split("::")`: every occurrence cuts, pieces may be empty, and the empty
input yields the single piece `""`. -/
def splitOnColons : List Char → List Char → List (List Char)
  | ':' :: ':' :: rest, acc => acc.reverse :: splitOnColons rest []
  | c :: rest, acc => splitOnColons rest (c :: acc)
  | [], acc => [acc.reverse]

/-- Embedding of Python `s.split("::")`. -/
def pySplitColons (s : String) : List String :=
  (splitOnColons s.toList []).map List.asString

/-- The `_href` value the string branch of `parse` stores: the second half of
the split when it has exactly two parts (`if len(slug) == 2: self._href =
slug[1]`), the whole string otherwise (`self._href = item`). -/
def parseStrHref (s : String) : String :=
  match pySplitColons s with
  | [_, id] => id
  | _ => s

/-- Embedding of `ManageIQVmdb.parse` (lines 161-172). A dict sets
`_api_url` to the `href` field of `self._vmdb` (the same object as `item` at
every call site); a missing `href` key raises `KeyError`, and a non-string
value would break the string concatenations downstream, so both are errors.
A string is split on `"::"` (Python `str.split` with no limit); only a split
of length exactly two keeps just the second half, every other string is kept
whole. `None` (possible when the `vmdb` parameter is a falsy empty dict and
`href` is absent) matches neither `isinstance` test and leaves the state
unchanged. -/
def parse (st : VmdbState) (item : Option VmdbRef) : Except String VmdbState :=
  match item with
  | some (.obj fields) =>
      match fields.lookup "href" with
      | some (.str h) => .ok { st with api_url := h }
      | some _ => .error "TypeError: href value is not a string"
      | none => .error "KeyError: href"
  | some (.str s) => .ok { st with href := some (parseStrHref s) }
  | none => .ok st

/-- HTTP requests issued through the ManageIQ client. A POST carries the
keyword arguments `action` and `resource` of `self._client.post`. -/
inductive Request where
  | get (url : String)
  | post (url : String) (action : String) (resource : Option Json)

/-- The URL a request targets. -/
def Request.url : Request → String
  | .get u => u
  | .post u _ _ => u

/-- The transport: a response (decoded JSON body) or a transport-level
exception for each request the client could be asked to perform. -/
def Client := Request → Except String Json

/-- Extraction of the list comprehension `[d['name'] for d in result['actions']]`
over the decoded `actions` array: every element must be a dict with a `name`
key, otherwise Python raises (`TypeError` or `KeyError`). -/
def extractNames : List Json → Except String (List Json)
  | [] => .ok []
  | d :: ds =>
      match d.getField "name" with
      | some v => (extractNames ds).map (fun names => v :: names)
      | none => .error "KeyError: name"

/-- Python equality of a string against a decoded JSON value, as used by the
membership test `path in actions`: a Python `str` equals only an equal
`str`, never a number, boolean, list, dict or `None`. -/
def pyStrEq (s : String) : Json → Bool
  | .str t => s == t
  | _ => false

/-- Embedding of the body of `ManageIQVmdb.exists` (lines 175-181) after the
GET has returned `resp`: build the list of `name` values of `resp['actions']`
and test membership of the requested action name. A response without an
`actions` key raises `KeyError`; an `actions` value that is not a list breaks
the comprehension. The parameter of the Python method is (confusingly) called
`path`; it is the action name at the single call site. -/
def exists_check (resp : Json) (actionName : String) : Except String Bool :=
  match resp.getField "actions" with
  | some (.arr ds) => (extractNames ds).map (fun names => names.any (pyStrEq actionName))
  | some _ => .error "TypeError: actions value is not a list"
  | none => .error "KeyError: actions"

/-- How a run of the module terminates: `exit` is `module.exit_json(**result)`
with the given keyword arguments, `fail` is `module.fail_json(msg=...)`, and
`err` is an uncaught Python exception (a crash, observably distinct from a
clean failure). The `msg` of `fail_json` is kept as a JSON value because
`fail_json(msg=result['message'])` passes whatever the response held. -/
inductive Outcome where
  | exit (result : List (String × Json))
  | fail (msg : Json)
  | err (msg : String)

/-- The `changed` entry of an `exit_json` result, when the run exited. -/
def Outcome.changedField : Outcome → Option Json
  | .exit result => result.lookup "changed"
  | _ => none

/-- A method run: its terminal outcome together with the list of HTTP requests
it performed, in order. -/
def RunResult := Outcome × List Request

/-- Embedding of `Vmdb.get_object` (lines 189-194) after `parse` has produced
state `st`: perform a single GET on `post_url` and return the decoded body as
the result dict (`dict(self.get(self.post_url))`; `self.get` has already
turned the response into a dict, so a non-object body is a `TypeError`). A
transport exception propagates uncaught. -/
def Vmdb_get_object (st : VmdbState) (client : Client) : RunResult :=
  match client (.get (post_url st)) with
  | .error e => (.err e, [.get (post_url st)])
  | .ok resp =>
      match resp with
      | .obj fields => (.exit fields, [.get (post_url st)])
      | _ => (.err "TypeError: response body is not a dict", [.get (post_url st)])

/-- Embedding of `Vmdb.action` (lines 197-210) after `parse` has produced
state `st`, with `data = module.params['data']` and the action name: first
`self.exists(action_string)` performs a GET on `post_url` and checks the
action list; when the action exists, POST `action=action_string,
resource=data` to `post_url` and branch on the truthiness of
`result['success']` — truthy exits with `dict(changed=False, value=result)`,
falsy fails with `msg=result['message']`; when the action does not exist,
fail with `msg="Action not found"` and no POST. Exceptions (transport
failures, malformed bodies) propagate uncaught. -/
def Vmdb_action (st : VmdbState) (actionName : String) (data : Option Json)
    (client : Client) : RunResult :=
  match client (.get (post_url st)) with
  | .error e => (.err e, [.get (post_url st)])
  | .ok resp =>
      match exists_check resp actionName with
      | .error e => (.err e, [.get (post_url st)])
      | .ok false => (.fail (.str "Action not found"), [.get (post_url st)])
      | .ok true =>
          match client (.post (post_url st) actionName data) with
          | .error e => (.err e, [.get (post_url st), .post (post_url st) actionName data])
          | .ok result =>
              match result.getField "success" with
              | none =>
                  (.err "KeyError: success",
                    [.get (post_url st), .post (post_url st) actionName data])
              | some successVal =>
                  if successVal.truthy then
                    (.exit [("changed", .bool false), ("value", result)],
                      [.get (post_url st), .post (post_url st) actionName data])
                  else
                    match result.getField "message" with
                    | none =>
                        (.err "KeyError: message",
                          [.get (post_url st), .post (post_url st) actionName data])
                    | some m =>
                        (.fail m, [.get (post_url st), .post (post_url st) actionName data])

/-- The top-level parameters of the module, as accepted by the argument spec
of `main` (lines 231-241): the required `manageiq_connection` dict plus the
optional `vmdb` (dict), `action` (string), `href` (string) and `data` (dict)
parameters, each `none` when not supplied. -/
structure ModuleParams where
  manageiq_connection : ConnectionParams
  vmdb : Option (List (String × Json))
  action : Option String
  href : Option String
  data : Option Json

/-- Embedding of `self._vmdb = self._module.params.get('vmdb') or
self._module.params.get('href')` (line 125): Python `or` falls through to
`href` whenever `vmdb` is falsy, which covers both an absent `vmdb` and a
supplied-but-empty dict; the result is `None` when both operands are falsy. -/
def initVmdb (p : ModuleParams) : Option VmdbRef :=
  match p.vmdb with
  | some fields =>
      if fields.isEmpty then p.href.map VmdbRef.str else some (.obj fields)
  | none => p.href.map VmdbRef.str

/-- The check induced by `required_one_of=[['vmdb', 'href']]` in the argument
spec. Per the semantics of AnsibleModule (an external dependency), a
`required_one_of` group fails only when NONE of its parameters is supplied;
it does not reject supplying several (that would be `mutually_exclusive`,
which this module does not declare). -/
def required_one_of_ok (p : ModuleParams) : Bool :=
  !(p.vmdb.isNone && p.href.isNone)

/-- Embedding of `main` (lines 226-256) over an abstract transport: validate
the argument spec (`required_one_of`), validate the connection parameters
(`ManageIQ.__init__` calls `validate_connection_params` and then sets
`_api_url = url + '/api'`), build the `Vmdb` object, `parse` the reference,
and dispatch on the truthiness of `module.params.get('action')` — a truthy
action string runs `vmdb.action()`, anything else (absent or empty) runs
`vmdb.get_object()`; either result is splatted into `module.exit_json`.
The `url.getD ""` for an absent url is unreachable: validation only accepts
parameter sets whose url is truthy. -/
def main_run (p : ModuleParams) (client : Client) : RunResult :=
  if !required_one_of_ok p then
    (.fail (.str "one of the following is required: vmdb, href"), [])
  else
    match validate_connection_params p.manageiq_connection with
    | .error e => (.fail (.str e), [])
    | .ok params =>
        match parse { api_url := params.url.getD "" ++ "/api", href := none } (initVmdb p) with
        | .error e => (.err e, [])
        | .ok st =>
            match p.action with
            | some a =>
                if a = "" then Vmdb_get_object st client
                else Vmdb_action st a p.data client
            | none => Vmdb_get_object st client

/-! ## Shared lemmas -/

/-- Python truthiness of an optional string parameter is the negation of
membership in `(None, '')`. -/
lemma pyTruthy_eq_not_inNoneOrEmpty (o : Option String) :
    pyTruthy o = !inNoneOrEmpty o := by
  cases o <;> rfl

/-- A string equals a JSON value in the Python sense exactly when the value
is the string constructor applied to it. -/
lemma pyStrEq_eq_true_iff (a : String) (v : Json) :
    pyStrEq a v = true ↔ v = .str a := by
  cases v <;> simp [pyStrEq]
  exact eq_comm

/-- The split of the empty string is the single empty piece, so any string
whose split has three or more pieces is non-empty. -/
lemma ne_empty_of_split_length (s : String) (h : 2 < (pySplitColons s).length) :
    s ≠ "" := by
  intro he
  subst he
  have h1 : (pySplitColons "").length = 1 := rfl
  omega

/-- A string whose split has a number of pieces other than two is kept whole
by the string branch of `parse`. -/
lemma parseStrHref_eq_self (s : String) (h : (pySplitColons s).length ≠ 2) :
    parseStrHref s = s := by
  unfold parseStrHref
  rcases hsp : pySplitColons s with _ | ⟨a, _ | ⟨b, _ | ⟨c, t⟩⟩⟩
  · rfl
  · rfl
  · rw [hsp] at h
    simp at h
  · rfl

/-- A string whose split has exactly two pieces resolves to the second
piece. -/
lemma parseStrHref_eq_id (s c id : String) (h : pySplitColons s = [c, id]) :
    parseStrHref s = id := by
  unfold parseStrHref
  rw [h]

/-- The `get_object` path performs exactly one GET, on `post_url`, whatever
the transport answers. -/
lemma Vmdb_get_object_log (st : VmdbState) (client : Client) :
    (Vmdb_get_object st client).2 = [.get (post_url st)] := by
  unfold Vmdb_get_object
  repeat' split
  all_goals rfl

/-- When the transport answers the single GET of the `get_object` path with a
JSON object, the run exits with exactly the fields of that object. -/
lemma Vmdb_get_object_ok (st : VmdbState) (client : Client)
    (fields : List (String × Json))
    (h : client (.get (post_url st)) = .ok (.obj fields)) :
    Vmdb_get_object st client = (.exit fields, [.get (post_url st)]) := by
  unfold Vmdb_get_object
  rw [h]

/-- Every request the `action` path performs targets `post_url`: the log is
either the single GET of the existence check or that GET followed by the
dispatching POST. -/
lemma Vmdb_action_log (st : VmdbState) (a : String) (d : Option Json)
    (client : Client) :
    (Vmdb_action st a d client).2 = [.get (post_url st)] ∨
    (Vmdb_action st a d client).2 =
      [.get (post_url st), .post (post_url st) a d] := by
  unfold Vmdb_action
  repeat' split
  all_goals first
    | (left; rfl)
    | (right; rfl)

/-! ## Connection validation (C3) -/

/-- C3: connection validation succeeds, returning the parameters, exactly
when (url, username, password) are all non-empty or (url, token) are both
non-empty; otherwise it fails naming the first field among
[url, username, password], in that fixed order, whose value is None or the
empty string. -/
theorem C3_connection_validation (p : ConnectionParams) :
    (validate_connection_params p = .ok p ↔
      ((pyTruthy p.url = true ∧ pyTruthy p.username = true ∧ pyTruthy p.password = true) ∨
        (pyTruthy p.url = true ∧ pyTruthy p.token = true))) ∧
    (¬ ((pyTruthy p.url = true ∧ pyTruthy p.username = true ∧ pyTruthy p.password = true) ∨
        (pyTruthy p.url = true ∧ pyTruthy p.token = true)) →
      validate_connection_params p =
        .error (missingArgMsg
          (if inNoneOrEmpty p.url then "url"
            else if inNoneOrEmpty p.username then "username"
            else "password"))) := by
  have hu := pyTruthy_eq_not_inNoneOrEmpty p.url
  have hn := pyTruthy_eq_not_inNoneOrEmpty p.username
  have hw := pyTruthy_eq_not_inNoneOrEmpty p.password
  unfold validate_connection_params
  by_cases h1 : inNoneOrEmpty p.url = true <;>
    by_cases h2 : inNoneOrEmpty p.username = true <;>
      by_cases h3 : inNoneOrEmpty p.password = true <;>
        by_cases h4 : pyTruthy p.token = true <;>
          simp [h1, h2, h3, h4, hu, hn, hw,
            Bool.eq_false_iff.mpr, eq_false_of_ne_true, missingArgMsg]

/-- Witness for C3: a connection with url and token but neither username nor
password is accepted, and a connection with url and username but no password
is rejected naming password, the first missing field in the fixed order. -/
theorem C3_connection_validation_witness :
    validate_connection_params ⟨some "https://host", none, none, some "tok"⟩ =
      .ok ⟨some "https://host", none, none, some "tok"⟩ ∧
    validate_connection_params ⟨some "https://host", some "admin", none, none⟩ =
      .error (missingArgMsg "password") := by
  constructor
  · exact (C3_connection_validation ⟨some "https://host", none, none, some "tok"⟩).1.mpr
      (by decide)
  · exact (C3_connection_validation ⟨some "https://host", some "admin", none, none⟩).2
      (by decide)

/-! ## Resource resolution (C4, C5, C6) -/

/-- C4 counterexample: the reference "vms::" contains exactly one "::"
separator and splits into ["vms", ""], but its resolved path is the bare base
URL and not baseUrl ++ "/" ++ "": the empty id stored in `_href` is falsy in
Python, so `post_url` appends nothing. -/
theorem C4_empty_id_counterexample :
    pySplitColons "vms::" = ["vms", ""] ∧
    parse { api_url := "https://host/api", href := none } (some (.str "vms::")) =
      .ok { api_url := "https://host/api", href := some "" } ∧
    post_url { api_url := "https://host/api", href := some "" } = "https://host/api" ∧
    "https://host/api" ≠ "https://host/api" ++ "/" ++ "" := by
  refine ⟨rfl, rfl, rfl, by decide⟩

/-- C4 (amended): a string reference splitting on "::" into exactly
[collectionHint, id] with a NON-EMPTY id resolves to baseUrl ++ "/" ++ id,
whatever the collection hint; with an empty id the resolved path is the bare
base URL. -/
theorem C4_slug_resolution (base s hint id : String)
    (h : pySplitColons s = [hint, id]) (hid : ¬ id = "") :
    ∃ st, parse { api_url := base, href := none } (some (.str s)) = .ok st ∧
      post_url st = base ++ "/" ++ id := by
  refine ⟨{ api_url := base, href := some id }, ?_, ?_⟩
  · simp only [parse]
    rw [parseStrHref_eq_id s hint id h]
  · unfold post_url
    simp [hid]

/-- Witness for C4 (amended): "vms::10" against base "https://host/api"
resolves to "https://host/api/10". -/
theorem C4_slug_resolution_witness :
    ∃ st,
      parse { api_url := "https://host/api", href := none } (some (.str "vms::10")) =
        .ok st ∧
      post_url st = "https://host/api" ++ "/" ++ "10" :=
  C4_slug_resolution "https://host/api" "vms::10" "vms" "10" rfl (by decide)

/-- C5: a string reference whose split on "::" has more than two pieces (more
than one separator) is kept whole, exactly as a plain string: the resolved
path is baseUrl ++ "/" ++ the full reference string. -/
theorem C5_multi_separator_resolution (base s : String)
    (h : 2 < (pySplitColons s).length) :
    ∃ st, parse { api_url := base, href := none } (some (.str s)) = .ok st ∧
      post_url st = base ++ "/" ++ s := by
  have hs : ¬ s = "" := ne_empty_of_split_length s h
  have hh : parseStrHref s = s := parseStrHref_eq_self s (by omega)
  refine ⟨{ api_url := base, href := some s }, ?_, ?_⟩
  · simp only [parse]
    rw [hh]
  · unfold post_url
    simp [hs]

/-- Witness for C5: "a::b::c" against base "https://host/api" resolves to
"https://host/api/a::b::c". -/
theorem C5_multi_separator_resolution_witness :
    ∃ st,
      parse { api_url := "https://host/api", href := none } (some (.str "a::b::c")) =
        .ok st ∧
      post_url st = "https://host/api" ++ "/" ++ "a::b::c" :=
  C5_multi_separator_resolution "https://host/api" "a::b::c" (by decide)

/-- C6: an inline object reference carrying a (string) href field resolves to
that href exactly: `parse` overwrites `_api_url` with the href, `_href`
remains None, and `post_url` appends no suffix. -/
theorem C6_inline_object_resolution (base h : String)
    (fields : List (String × Json)) (hh : fields.lookup "href" = some (.str h)) :
    ∃ st, parse { api_url := base, href := none } (some (.obj fields)) = .ok st ∧
      post_url st = h := by
  refine ⟨{ api_url := h, href := none }, ?_, rfl⟩
  simp only [parse]
  rw [hh]

/-- Witness for C6: an inline object whose href is
"https://host/api/vms/10" resolves to that very URL. -/
theorem C6_inline_object_resolution_witness :
    ∃ st,
      parse { api_url := "https://host/api", href := none }
          (some (.obj [("href", .str "https://host/api/vms/10")])) = .ok st ∧
      post_url st = "https://host/api/vms/10" :=
  C6_inline_object_resolution "https://host/api" "https://host/api/vms/10"
    [("href", .str "https://host/api/vms/10")] rfl

/-! ## Action existence check (C7) -/

/-- When every element of the actions array is an object with a name field,
the name extraction succeeds and produces a list whose membership test for a
string is exactly: some element has that string as its name. -/
lemma extractNames_wellformed (a : String) (ds : List Json)
    (h : ∀ d ∈ ds, ∃ v, Json.getField d "name" = some v) :
    ∃ names, extractNames ds = .ok names ∧
      (names.any (pyStrEq a) = true ↔
        ∃ d ∈ ds, Json.getField d "name" = some (.str a)) := by
  induction ds with
  | nil => exact ⟨[], rfl, by simp⟩
  | cons d ds ih =>
    obtain ⟨v, hv⟩ := h d (List.mem_cons_self d ds)
    obtain ⟨names, hn, hiff⟩ := ih (fun x hx => h x (List.mem_cons_of_mem d hx))
    refine ⟨v :: names, ?_, ?_⟩
    · simp only [extractNames]
      rw [hv, hn]
      rfl
    · simp only [List.any_cons, Bool.or_eq_true, pyStrEq_eq_true_iff, hiff]
      constructor
      · rintro (hva | ⟨x, hx, hxa⟩)
        · exact ⟨d, List.mem_cons_self d ds, hva ▸ hv⟩
        · exact ⟨x, List.mem_cons_of_mem d hx, hxa⟩
      · rintro ⟨x, hx, hxa⟩
        rcases List.mem_cons.mp hx with he | hm
        · subst he
          rw [hv] at hxa
          exact Or.inl (Option.some.inj hxa)
        · exact Or.inr ⟨x, hm, hxa⟩

/-- C7: on a GET response that is a JSON object whose actions entry is an
array of objects each carrying a name field, the existence check returns a
boolean that is true exactly when the requested action name is the name of
some entry; on a response lacking an actions entry it raises (a KeyError in
Python), never the boolean false. -/
theorem C7_action_existence (resp : Json) (a : String) :
    (∀ ds, Json.getField resp "actions" = some (.arr ds) →
      (∀ d ∈ ds, ∃ v, Json.getField d "name" = some v) →
      ∃ b, exists_check resp a = .ok b ∧
        (b = true ↔ ∃ d ∈ ds, Json.getField d "name" = some (.str a))) ∧
    (Json.getField resp "actions" = none →
      exists_check resp a = .error "KeyError: actions") := by
  constructor
  · intro ds hds hw
    obtain ⟨names, hn, hiff⟩ := extractNames_wellformed a ds hw
    refine ⟨names.any (pyStrEq a), ?_, hiff⟩
    unfold exists_check
    rw [hds]
    show Except.map (fun names => names.any (pyStrEq a)) (extractNames ds) =
      .ok (names.any (pyStrEq a))
    rw [hn]
    rfl
  · intro hnone
    unfold exists_check
    rw [hnone]

/-- Witness for C7: a response whose actions array holds entries named start
and stop answers the check for start with a boolean (true, since start is
there), and a response without an actions entry raises instead of answering
false. -/
theorem C7_action_existence_witness :
    (∃ b,
      exists_check
          (.obj [("actions", .arr [.obj [("name", .str "start")], .obj [("name", .str "stop")]])])
          "start" = .ok b ∧
      (b = true ↔
        ∃ d ∈ [Json.obj [("name", Json.str "start")], Json.obj [("name", Json.str "stop")]],
          Json.getField d "name" = some (.str "start"))) ∧
    exists_check (.obj [("name", .str "vm1")]) "start" = .error "KeyError: actions" := by
  constructor
  · exact (C7_action_existence
      (.obj [("actions", .arr [.obj [("name", .str "start")], .obj [("name", .str "stop")]])])
      "start").1
      [.obj [("name", .str "start")], .obj [("name", .str "stop")]] rfl
      (by
        intro d hd
        rcases List.mem_cons.mp hd with he | hm
        · exact ⟨.str "start", by rw [he]; rfl⟩
        · rcases List.mem_cons.mp hm with he2 | hn
          · exact ⟨.str "stop", by rw [he2]; rfl⟩
          · cases hn)
  · exact (C7_action_existence (.obj [("name", .str "vm1")]) "start").2 rfl

/-! ## Dispatcher (C1, C2, C8, C9, C10) -/

/-- Once the argument-spec gate passes, the connection validates and the
reference resolution step succeeds, the run is exactly the GET or action path
on the resolved state, the choice made by the truthiness of the action
parameter. -/
lemma main_run_reduces (p : ModuleParams) (client : Client) (st : VmdbState)
    (h1 : required_one_of_ok p = true)
    (hv : validate_connection_params p.manageiq_connection = .ok p.manageiq_connection)
    (hp : parse { api_url := p.manageiq_connection.url.getD "" ++ "/api", href := none }
        (initVmdb p) = .ok st) :
    main_run p client =
      match p.action with
      | some a => if a = "" then Vmdb_get_object st client else Vmdb_action st a p.data client
      | none => Vmdb_get_object st client := by
  simp only [main_run, h1, hv, hp, Bool.not_true, Bool.false_eq_true, if_false]

/-- The action path with an existing action and a POST response whose success
field is the JSON boolean true exits with changed = false and the full POST
response as value, after exactly the GET of the existence check and the
dispatching POST. -/
lemma Vmdb_action_success (st : VmdbState) (a : String) (d : Option Json)
    (client : Client) (resp result : Json)
    (hg : client (.get (post_url st)) = .ok resp)
    (he : exists_check resp a = .ok true)
    (hq : client (.post (post_url st) a d) = .ok result)
    (hs : Json.getField result "success" = some (.bool true)) :
    Vmdb_action st a d client =
      (.exit [("changed", .bool false), ("value", result)],
        [.get (post_url st), .post (post_url st) a d]) := by
  simp only [Vmdb_action, hg, he, hq, hs, Json.truthy, if_true]

/-- The action path with a fetched action list that does not contain the
requested action fails with the message "Action not found" after the single
GET of the existence check, performing no POST. -/
lemma Vmdb_action_not_found (st : VmdbState) (a : String) (d : Option Json)
    (client : Client) (resp : Json)
    (hg : client (.get (post_url st)) = .ok resp)
    (he : exists_check resp a = .ok false) :
    Vmdb_action st a d client =
      (.fail (.str "Action not found"), [.get (post_url st)]) := by
  simp only [Vmdb_action, hg, he]

/-- A connection parameter set with url and token, shared by the concrete
runs below. -/
def tokenConn : ConnectionParams :=
  { url := some "https://host", username := none, password := none, token := some "tok" }

/-- A GET body whose action list holds the actions start and stop. -/
def actionBody : Json :=
  .obj [("actions", .arr [.obj [("name", .str "start")], .obj [("name", .str "stop")]]),
        ("name", .str "vm1")]

/-- A POST response body with success = true. -/
def postOkBody : Json := .obj [("success", .bool true), ("message", .str "started")]

/-- A transport answering the GET on vms/7 with `actionBody` and the start
POST with `postOkBody`. -/
def startClient : Client := fun req =>
  match req with
  | .get "https://host/api/vms/7" => .ok actionBody
  | .post "https://host/api/vms/7" "start" _ => .ok postOkBody
  | _ => .error "unexpected request"

/-- An invocation asking for the start action on the href reference vms/7. -/
def startParams : ModuleParams :=
  { manageiq_connection := tokenConn, vmdb := none, action := some "start",
    href := some "vms/7", data := some (.obj []) }

/-- C1 counterexample: an invocation whose action (start) is in the fetched
action list and whose POST response carries success = true exits with a
changed flag of FALSE, not true: line 206 of the source returns
`dict(changed=False, value=result)`. The conjuncts re-check the claim
hypotheses at this input before exhibiting the flag. -/
theorem C1_changed_flag_counterexample :
    exists_check actionBody "start" = .ok true ∧
    Json.getField postOkBody "success" = some (.bool true) ∧
    (main_run startParams startClient).1 =
      .exit [("changed", .bool false), ("value", postOkBody)] ∧
    (main_run startParams startClient).1.changedField = some (.bool false) ∧
    Json.bool false ≠ Json.bool true := by
  refine ⟨rfl, rfl, rfl, rfl, by simp⟩

/-- C1 (amended): when a (truthy) action name is supplied, the action is in
the fetched action list, and the POST response has a success field equal to
the JSON boolean true, the dispatcher exits with changed = FALSE and the full
decoded POST response body as value. -/
theorem C1_action_success_dispatch (p : ModuleParams) (client : Client)
    (st : VmdbState) (a : String) (resp result : Json)
    (ha : p.action = some a) (hne : ¬ a = "")
    (h1 : required_one_of_ok p = true)
    (hv : validate_connection_params p.manageiq_connection = .ok p.manageiq_connection)
    (hp : parse { api_url := p.manageiq_connection.url.getD "" ++ "/api", href := none }
        (initVmdb p) = .ok st)
    (hg : client (.get (post_url st)) = .ok resp)
    (he : exists_check resp a = .ok true)
    (hq : client (.post (post_url st) a p.data) = .ok result)
    (hs : Json.getField result "success" = some (.bool true)) :
    (main_run p client).1 = .exit [("changed", .bool false), ("value", result)] := by
  have hm := main_run_reduces p client st h1 hv hp
  simp only [ha] at hm
  rw [if_neg hne] at hm
  rw [hm, Vmdb_action_success st a p.data client resp result hg he hq hs]

/-- Witness for C1 (amended): the start invocation exits with changed = false
and the POST body as value. -/
theorem C1_action_success_dispatch_witness :
    (main_run startParams startClient).1 =
      .exit [("changed", .bool false), ("value", postOkBody)] :=
  C1_action_success_dispatch startParams startClient
    { api_url := "https://host/api", href := some "vms/7" } "start" actionBody postOkBody
    rfl (by decide) rfl rfl rfl rfl rfl rfl rfl

/-- C8: when a (truthy) action name is supplied and the fetched action list
does not contain it, the dispatcher fails with exactly the message
"Action not found", its request log is the single GET of the existence
check, and in particular no POST request is performed. -/
theorem C8_action_not_found_dispatch (p : ModuleParams) (client : Client)
    (st : VmdbState) (a : String) (resp : Json)
    (ha : p.action = some a) (hne : ¬ a = "")
    (h1 : required_one_of_ok p = true)
    (hv : validate_connection_params p.manageiq_connection = .ok p.manageiq_connection)
    (hp : parse { api_url := p.manageiq_connection.url.getD "" ++ "/api", href := none }
        (initVmdb p) = .ok st)
    (hg : client (.get (post_url st)) = .ok resp)
    (he : exists_check resp a = .ok false) :
    (main_run p client).1 = .fail (.str "Action not found") ∧
    (main_run p client).2 = [.get (post_url st)] ∧
    ∀ u b d, Request.post u b d ∉ (main_run p client).2 := by
  have hm := main_run_reduces p client st h1 hv hp
  simp only [ha] at hm
  rw [if_neg hne] at hm
  rw [hm, Vmdb_action_not_found st a p.data client resp hg he]
  refine ⟨rfl, rfl, ?_⟩
  intro u b d hmem
  simp at hmem

/-- Witness for C8: asking for the delete action, absent from the fetched
action list, fails with "Action not found" after the single GET. -/
theorem C8_action_not_found_dispatch_witness :
    (main_run { startParams with action := some "delete" } startClient).1 =
      .fail (.str "Action not found") ∧
    (main_run { startParams with action := some "delete" } startClient).2 =
      [.get "https://host/api/vms/7"] := by
  have h := C8_action_not_found_dispatch { startParams with action := some "delete" }
    startClient { api_url := "https://host/api", href := some "vms/7" } "delete" actionBody
    rfl (by decide) rfl rfl rfl rfl rfl
  exact ⟨h.1, h.2.1⟩

/-- An invocation with no action parameter on the href reference vms/7. -/
def readParams : ModuleParams :=
  { manageiq_connection := tokenConn, vmdb := none, action := none,
    href := some "vms/7", data := none }

/-- A transport answering the GET on vms/7 with a body whose own changed
field is the JSON boolean true. -/
def changedBodyClient : Client := fun req =>
  match req with
  | .get "https://host/api/vms/7" => .ok (.obj [("changed", .bool true)])
  | _ => .error "unexpected request"

/-- C2 counterexample: with no action parameter the module result is the
decoded body itself, splatted into exit_json, not a
changed=false/value=body wrapper: a body whose own changed field is true
yields a result whose changed flag is TRUE, and no value field wraps the
body. -/
theorem C2_result_shape_counterexample :
    (main_run readParams changedBodyClient).1 = .exit [("changed", .bool true)] ∧
    (main_run readParams changedBodyClient).1.changedField = some (.bool true) ∧
    Json.bool true ≠ Json.bool false ∧
    (main_run readParams changedBodyClient).2 = [.get "https://host/api/vms/7"] := by
  refine ⟨rfl, rfl, by simp, rfl⟩

/-- C2 (amended): with no action parameter the dispatcher performs exactly
one GET, on the resolved path, whatever the transport answers; when the
transport answers with a JSON object the module exits with exactly the
fields of that object as the result (the module adds no changed flag and
wraps the body under no value key). -/
theorem C2_read_dispatch (p : ModuleParams) (client : Client) (st : VmdbState)
    (ha : p.action = none)
    (h1 : required_one_of_ok p = true)
    (hv : validate_connection_params p.manageiq_connection = .ok p.manageiq_connection)
    (hp : parse { api_url := p.manageiq_connection.url.getD "" ++ "/api", href := none }
        (initVmdb p) = .ok st) :
    (main_run p client).2 = [.get (post_url st)] ∧
    (∀ fields, client (.get (post_url st)) = .ok (.obj fields) →
      (main_run p client).1 = .exit fields) := by
  have hm := main_run_reduces p client st h1 hv hp
  simp only [ha] at hm
  constructor
  · rw [hm]
    exact Vmdb_get_object_log st client
  · intro fields hf
    rw [hm, Vmdb_get_object_ok st client fields hf]

/-- Witness for C2 (amended): a read of vms/7 answered with the body
`{"name": "vm1"}` performs the single GET and exits with exactly that body. -/
theorem C2_read_dispatch_witness :
    (main_run readParams
        (fun req =>
          match req with
          | .get "https://host/api/vms/7" => .ok (.obj [("name", .str "vm1")])
          | _ => .error "unexpected request")).2 = [.get "https://host/api/vms/7"] ∧
    (main_run readParams
        (fun req =>
          match req with
          | .get "https://host/api/vms/7" => .ok (.obj [("name", .str "vm1")])
          | _ => .error "unexpected request")).1 = .exit [("name", .str "vm1")] := by
  have h := C2_read_dispatch readParams
    (fun req =>
      match req with
      | .get "https://host/api/vms/7" => .ok (.obj [("name", .str "vm1")])
      | _ => .error "unexpected request")
    { api_url := "https://host/api", href := some "vms/7" } rfl rfl rfl rfl
  exact ⟨h.1, h.2 [("name", .str "vm1")] rfl⟩

/-- A transport answering only the GET on the inline href vms/42. -/
def inlineClient : Client := fun req =>
  match req with
  | .get "https://host/api/vms/42" => .ok (.obj [("name", .str "vm42")])
  | _ => .error "unexpected request"

/-- An invocation supplying BOTH the vmdb dict and the href string. -/
def bothParams : ModuleParams :=
  { manageiq_connection := tokenConn,
    vmdb := some [("href", .str "https://host/api/vms/42")],
    action := none, href := some "vms/7", data := none }

/-- C9 counterexample: an invocation supplying both a vmdb dict and an href
string is NOT rejected: required_one_of only demands at least one, so the
run proceeds and completes successfully, the vmdb dict taking precedence
(its href, vms/42, determines the request URL rather than vms/7). -/
theorem C9_both_supplied_counterexample :
    bothParams.vmdb.isSome = true ∧ bothParams.href.isSome = true ∧
    main_run bothParams inlineClient =
      (.exit [("name", .str "vm42")], [.get "https://host/api/vms/42"]) :=
  ⟨rfl, rfl, rfl⟩

/-- C9 (amended): at least one of vmdb/href is required: the argument-spec
gate fails exactly when neither is supplied, and in that case the run is
rejected before any network request; supplying both passes the gate. -/
theorem C9_at_least_one_required (p : ModuleParams) (client : Client) :
    (required_one_of_ok p = false ↔ p.vmdb = none ∧ p.href = none) ∧
    (p.vmdb = none → p.href = none →
      main_run p client =
        (.fail (.str "one of the following is required: vmdb, href"), [])) := by
  constructor
  · unfold required_one_of_ok
    cases p.vmdb <;> cases p.href <;> simp
  · intro hvm hhr
    unfold main_run required_one_of_ok
    rw [hvm, hhr]
    rfl

/-- An invocation supplying neither the vmdb dict nor the href string. -/
def neitherParams : ModuleParams :=
  { manageiq_connection := tokenConn, vmdb := none, action := none,
    href := none, data := none }

/-- Witness for C9 (amended): supplying neither vmdb nor href is rejected
with the required_one_of message before any request. -/
theorem C9_at_least_one_required_witness :
    main_run neitherParams inlineClient =
      (.fail (.str "one of the following is required: vmdb, href"), []) :=
  (C9_at_least_one_required neitherParams inlineClient).2 rfl rfl

/-- An invocation whose href reference is the empty string. -/
def emptyHrefParams : ModuleParams :=
  { manageiq_connection := tokenConn, vmdb := none, action := none,
    href := some "", data := none }

/-- A transport answering only the GET on the bare api root. -/
def apiRootClient : Client := fun req =>
  match req with
  | .get "https://host/api" => .ok (.obj [("name", .str "API")])
  | _ => .error "unexpected request"

/-- C10 counterexample: with the empty string as reference the stored href
is falsy and `post_url` appends nothing: the single GET targets
U ++ "/api" and not U ++ "/api" ++ "/" ++ R. -/
theorem C10_empty_reference_counterexample :
    (main_run emptyHrefParams apiRootClient).2 = [.get "https://host/api"] ∧
    "https://host/api" ≠ "https://host" ++ "/api" ++ "/" ++ "" := by
  exact ⟨rfl, by decide⟩

/-- C10 (amended): for a NON-EMPTY plain string reference R (no "::"
separator), the wrapper itself appends the literal "/api" to the connection
url U, and every request of the run, in read as well as in action mode,
targets U ++ "/api" ++ "/" ++ R; for the empty string reference the suffix
is suppressed and requests target U ++ "/api". -/
theorem C10_base_url (p : ModuleParams) (client : Client) (U R : String)
    (hu : p.manageiq_connection.url = some U)
    (hv : validate_connection_params p.manageiq_connection = .ok p.manageiq_connection)
    (hvm : p.vmdb = none) (hhr : p.href = some R)
    (hplain : pySplitColons R = [R]) (hne : ¬ R = "") :
    ∀ req ∈ (main_run p client).2, req.url = U ++ "/api" ++ "/" ++ R := by
  have h1 : required_one_of_ok p = true := by
    unfold required_one_of_ok
    rw [hhr]
    simp
  have hi : initVmdb p = some (.str R) := by
    unfold initVmdb
    rw [hvm, hhr]
    rfl
  have hhref : parseStrHref R = R := parseStrHref_eq_self R (by rw [hplain]; simp)
  have hp : parse { api_url := p.manageiq_connection.url.getD "" ++ "/api", href := none }
      (initVmdb p) = .ok { api_url := U ++ "/api", href := some R } := by
    rw [hi, hu]
    simp only [parse, hhref]
    rfl
  have hpost : post_url { api_url := U ++ "/api", href := some R } =
      U ++ "/api" ++ "/" ++ R := by
    unfold post_url
    simp [hne]
  have hm := main_run_reduces p client { api_url := U ++ "/api", href := some R } h1 hv hp
  intro req hreq
  rw [hm] at hreq
  have hget : req ∈ [Request.get (post_url { api_url := U ++ "/api", href := some R })] →
      req.url = U ++ "/api" ++ "/" ++ R := by
    intro hr
    rw [List.mem_singleton] at hr
    rw [hr, Request.url, hpost]
  cases hpa : p.action with
  | none =>
    simp only [hpa] at hreq
    rw [Vmdb_get_object_log] at hreq
    exact hget hreq
  | some a =>
    simp only [hpa] at hreq
    by_cases hae : a = ""
    · rw [if_pos hae] at hreq
      rw [Vmdb_get_object_log] at hreq
      exact hget hreq
    · rw [if_neg hae] at hreq
      rcases Vmdb_action_log { api_url := U ++ "/api", href := some R } a p.data client
        with hl | hl
      · rw [hl] at hreq
        exact hget hreq
      · rw [hl] at hreq
        rcases List.mem_cons.mp hreq with hr | hr
        · rw [hr, Request.url, hpost]
        · rw [List.mem_singleton] at hr
          rw [hr, Request.url, hpost]

/-- Witness for C10 (amended): the read of the plain reference vms/7 with
connection url https://host performs a single request, and that request
targets https://host/api/vms/7. -/
theorem C10_base_url_witness :
    (main_run readParams changedBodyClient).2 = [Request.get "https://host/api/vms/7"] ∧
    Request.url (Request.get "https://host/api/vms/7") =
      "https://host" ++ "/api" ++ "/" ++ "vms/7" := by
  have hmem : Request.get "https://host/api/vms/7" ∈
      (main_run readParams changedBodyClient).2 := by
    have hlog : (main_run readParams changedBodyClient).2 =
        [Request.get "https://host/api/vms/7"] := rfl
    rw [hlog]
    exact List.mem_singleton.mpr rfl
  exact ⟨rfl, C10_base_url readParams changedBodyClient "https://host" "vms/7"
    rfl rfl rfl rfl rfl (by decide) (Request.get "https://host/api/vms/7") hmem⟩
